import Mathlib

/-!
Verification of the Conversational Form Engine (`chatbot_engine.py`).

The development shallowly embeds the data model (`data_models.py`) and the
pure logic of `ChatbotEngine` (`chatbot_engine.py`): the skip-logic evaluator
(`_should_skip_question`, `_apply_smart_skip_rules`), the answer validator
(`_validate_answer`, `_validate_descriptive_answer`), the standard field
extractor (`_update_standard_fields`), the per-turn state machine
(`start_conversation`, `get_next_question`, `process_answer`) and the
submission assembler (`create_assistance_request`).

External effects are made explicit:
* the OpenAI call inside `_validate_descriptive_answer` is a parameter of
  type `LangResult` (either the returned message content or a raised
  exception);
* `uuid.uuid4()` / `datetime.now()` in `create_assistance_request` are
  parameters (`FreshIds`, two timestamps);
* presentation-only strings (the welcome message, `_format_question`,
  `_make_question_conversational`, the random confirmation message) are not
  modelled; operations return the selected `Question` instead of its
  formatted text.  None of the verified properties concern these strings.

Python strings are Lean `String`s; `str.lower()` is character-wise ASCII
lowering (`lowerStr`), `str.strip()` removes leading/trailing whitespace
(`trimStr`), `a in b` is substring containment, and the
`re` patterns used by the engine are embedded by a small matcher (`RxTok`)
covering exactly the constructs those patterns use (literals, `.*`, `\w`,
optional character class).  Python dicts keyed by question id are
insertion-ordered association lists.
-/

/-! ## String helpers -/

/-- Predicate `startsWithL pat cs`: `pat` is a leading segment of `cs`. -/
def startsWithL : List Char → List Char → Bool
  | [], _ => true
  | _ :: _, [] => false
  | p :: ps, c :: cs => p == c && startsWithL ps cs

/-- Predicate `containsSubL hay pat`: Python `pat in hay` on character lists
(the empty pattern is contained in everything, as in Python). -/
def containsSubL : List Char → List Char → Bool
  | cs, pat =>
    startsWithL pat cs ||
      match cs with
      | [] => false
      | _ :: rest => containsSubL rest pat

/-- Python `pat in hay` for strings. -/
def containsSub (hay pat : String) : Bool :=
  containsSubL hay.data pat.data

/-- Python `str.lower()`: character-wise ASCII lowering (kernel-reducible, unlike
`String.toLower`, and agreeing with it). -/
def lowerStr (s : String) : String :=
  ⟨s.data.map Char.toLower⟩

/-- Drop leading and trailing whitespace from a character list. -/
def trimL (cs : List Char) : List Char :=
  ((cs.dropWhile Char.isWhitespace).reverse.dropWhile Char.isWhitespace).reverse

/-- Python `str.strip()`: remove leading and trailing whitespace
(kernel-reducible, unlike `String.trim`, and agreeing with it). -/
def trimStr (s : String) : String :=
  ⟨trimL s.data⟩

/-- Number of whitespace-separated words: `len(s.split())`. -/
def wordCountL : List Char → Bool → Nat
  | [], _ => 0
  | c :: cs, inWord =>
    if c.isWhitespace then wordCountL cs false
    else (if inWord then 0 else 1) + wordCountL cs true

/-- Python `len(s.split())` (split on whitespace runs). -/
def wordCount (s : String) : Nat :=
  wordCountL s.data false

/-- Python `sep.join(parts)`. -/
def joinSep (sep : String) : List String → String
  | [] => ""
  | [x] => x
  | x :: xs => x ++ sep ++ joinSep sep xs

/-- Predicate `prefixRun p k cs`: the first `k` characters of `cs` exist and satisfy `p`. -/
def prefixRun (p : Char → Bool) : Nat → List Char → Bool
  | 0, _ => true
  | _ + 1, [] => false
  | k + 1, c :: cs => p c && prefixRun p k cs

/-- Predicate `existsRun p k cs`: some position of `cs` starts `k` consecutive
characters satisfying `p` (the semantics of `re.search` on `[class]{k,}`). -/
def existsRun (p : Char → Bool) (k : Nat) : List Char → Bool
  | [] => prefixRun p k []
  | c :: cs => prefixRun p k (c :: cs) || existsRun p k cs

/-! ## Mini-regex

The engine's `re` patterns use only: literal text, `.*` (any run of
non-newline characters), `\w` / `\w+` (a word character; all `\w+` uses are
pattern-final, so one character decides a search match), and an optional
apostrophe class `[''']?`.  `rxSearch` is `re.search` (match anywhere). -/

inductive RxTok where
  | lit (s : String)
  | gap
  | wordChar
  | optChars (cs : List Char)
deriving DecidableEq

/-- Skip any number of non-newline characters, testing the continuation
`k` at every position — the semantics of `.*` followed by the remaining
pattern. -/
def scanSkip (k : List Char → Bool) : List Char → Bool
  | [] => k []
  | c :: rest => k (c :: rest) || (c != '\n' && scanSkip k rest)

/-- Match a token list at the start of `cs` (prefix match, as each `re`
pattern element must match in sequence).  `.gap` (= `.*`) may swallow any
characters except a newline. -/
def matchToks : List RxTok → List Char → Bool
  | [], _ => true
  | .lit s :: ts, cs => startsWithL s.data cs && matchToks ts (cs.drop s.data.length)
  | .gap :: ts, cs => scanSkip (matchToks ts) cs
  | .wordChar :: ts, cs =>
    match cs with
    | [] => false
    | c :: rest => (c.isAlpha || c.isDigit || c == '_') && matchToks ts rest
  | .optChars cls :: ts, cs =>
    (match cs with
     | [] => false
     | c :: rest => cls.contains c && matchToks ts rest) ||
      matchToks ts cs

/-- Semantics of `re.search`: the pattern matches starting at some position. -/
def rxSearch (p : List RxTok) : List Char → Bool
  | [] => matchToks p []
  | c :: cs => matchToks p (c :: cs) || rxSearch p cs

/-! ## Data model (`data_models.py`) -/

/-- The source stores `Question.conditional_logic` as an optional free-text
rule string which `_should_skip_question` regex-parses each turn
(pattern 1: `if Qn = 'value'`, pattern 2: `skip if Qn != 'value'`).  The
parsed form is embedded directly as a tagged rule; `unmatched` stands for a
present rule string that matches neither pattern, in which case the source
falls through to the smart skip rules. -/
inductive CondLogic where
  | equalsRule (num : Nat) (expected : String)
  | notEqualsRule (num : Nat) (expected : String)
  | unmatched
deriving DecidableEq

/-- The `Question` dataclass. -/
structure Question where
  id : String
  number : Nat
  question_text : String
  field_type : String
  field_responses : List String
  conditional_logic : Option CondLogic := none
  required : Bool := true
  validation_pattern : Option String := none
  help_text : Option String := none
deriving DecidableEq

/-- The `FormTemplate` dataclass (timestamps as naturals). -/
structure FormTemplate where
  id : String
  name : String
  organization : String
  description : String
  questions : List Question
  standard_fields : List String := []
  created_at : Nat := 0
  updated_at : Nat := 0
  version : Nat := 1
  base_template_id : Option String := none
  is_active : Bool := true
deriving DecidableEq

/-- The `PersonalInfo` dataclass. -/
structure PersonalInfo where
  person_first_name : Option String := none
  person_last_name : Option String := none
  person_date_of_birth : Option String := none
  person_middle_name : Option String := none
  person_preferred_name : Option String := none
  person_gender : Option String := none
  person_citizenship : Option String := none
  person_ethnicity : Option String := none
  person_marital_status : Option String := none
  person_race : Option String := none
  person_phone_number : Option String := none
  person_email_address : Option String := none
deriving DecidableEq

/-- The `AddressInfo` dataclass. -/
structure AddressInfo where
  address_type : Option String := none
  address_line_1 : Option String := none
  address_line_2 : Option String := none
  address_city : Option String := none
  address_state : Option String := none
  address_country : Option String := none
  address_postal_code : Option String := none
deriving DecidableEq

/-- The `AssistanceRequest` dataclass (timestamps as naturals, the
`custom_responses` dict as an insertion-ordered association list). -/
structure AssistanceRequest where
  assistance_request_id : String
  description : String
  service_id : String
  provider_id : String
  case_id : String
  form_id : String
  personal_info : PersonalInfo
  address_info : AddressInfo
  custom_responses : List (String × String)
  created_at : Nat
  updated_at : Nat
deriving DecidableEq

/-! ## Python dict on string keys (insertion-ordered association list) -/

/-- Python `d[key]` lookup returning `None` when absent. -/
def dictLookup : List (String × String) → String → Option String
  | [], _ => none
  | (k, v) :: rest, key => if k = key then some v else dictLookup rest key

/-- Python `key in d`. -/
def dictContains (m : List (String × String)) (key : String) : Bool :=
  (dictLookup m key).isSome

/-- Python `d[key] = val`: replace in place if the key exists (keeping its
position), otherwise append — exactly Python dict assignment. -/
def dictInsert : List (String × String) → String → String → List (String × String)
  | [], key, val => [(key, val)]
  | (k, v) :: rest, key, val =>
    if k = key then (k, val) :: rest else (k, v) :: dictInsert rest key val

/-! ## Skip logic (`_should_skip_question`, `_apply_smart_skip_rules`) -/

/-- Normalisation `answer.lower().strip()` — the normalisation applied to stored answers
(and, composed the other way round, to expected rule values) before
comparison. -/
def normAns (s : String) : String :=
  (trimStr (lowerStr s))

/-- The loop shared by both conditional patterns: scan the template in order
for the first question whose `number` equals the referenced number *and*
which already has a recorded answer, and return that answer. -/
def findAnsweredRef (t : FormTemplate) (resp : List (String × String)) (num : Nat) : Option String :=
  match t.questions.find? (fun q => q.number == num && dictContains resp q.id) with
  | some q => dictLookup resp q.id
  | none => none

/-- Rule 1: skip court-related follow-up questions if no court case. -/
def smartRule1 (t : FormTemplate) (resp : List (String × String)) (qt : String) : Bool :=
  containsSub qt "referral source" && containsSub qt "court" &&
    t.questions.any (fun p =>
      containsSub (lowerStr p.question_text) "court case" &&
        match dictLookup resp p.id with
        | some a => ["no", "n", "none", "not applicable", "na"].contains (normAns a)
        | none => false)

/-- Rule 2: skip spouse-related questions if not married. -/
def smartRule2 (t : FormTemplate) (resp : List (String × String)) (qt : String) : Bool :=
  (containsSub qt "spouse" || containsSub qt "partner") &&
    t.questions.any (fun p =>
      (containsSub (lowerStr p.question_text) "married" || containsSub (lowerStr p.question_text) "marital") &&
        match dictLookup resp p.id with
        | some a => ["no", "single", "divorced", "widowed", "separated"].contains (normAns a)
        | none => false)

/-- Rule 3: skip program-specific questions based on program selection
(the stored answer is only lower-cased here, not stripped, as in the
source). -/
def smartRule3 (t : FormTemplate) (resp : List (String × String)) (qt : String) : Bool :=
  containsSub qt "program" &&
    (containsSub qt "dads" || containsSub qt "moms" || containsSub qt "epic" || containsSub qt "mend") &&
    t.questions.any (fun p =>
      containsSub (lowerStr p.question_text) "program" && containsSub (lowerStr p.question_text) "enrolled" &&
        match dictLookup resp p.id with
        | some a =>
          (containsSub qt "dads" && !containsSub (lowerStr a) "dads") ||
            (containsSub qt "epic" && !containsSub (lowerStr a) "epic") ||
            (containsSub qt "mend" && !containsSub (lowerStr a) "mend")
        | none => false)

/-- Rule 4: skip benefit amount questions if the person receives none. -/
def smartRule4 (t : FormTemplate) (resp : List (String × String)) (qt : String) : Bool :=
  containsSub qt "benefit" && (containsSub qt "amount" || containsSub qt "monthly") &&
    t.questions.any (fun p =>
      containsSub (lowerStr p.question_text) "benefit" &&
        match dictLookup resp p.id with
        | some a => ["no", "none", "0", "not applicable", "na", "do not receive"].contains (normAns a)
        | none => false)

/-- Rule 5: skip secondary contact questions when *any* recorded answer is a
refusal form — the source scans every answered question, not just
contact-related ones. -/
def smartRule5 (t : FormTemplate) (resp : List (String × String)) (qt : String) : Bool :=
  (containsSub qt "secondary" || containsSub qt "alternate") &&
    t.questions.any (fun p =>
      match dictLookup resp p.id with
      | some a => ["no", "none", "not needed", "no thanks", "skip"].contains (normAns a)
      | none => false)

/-- Embedding of `_apply_smart_skip_rules`: the five rules in order, each returning
`True` on a hit and otherwise falling through; absence of any hit means "do
not skip". -/
def applySmartSkipRules (t : FormTemplate) (resp : List (String × String)) (q : Question) : Bool :=
  let qt := (lowerStr q.question_text)
  smartRule1 t resp qt || smartRule2 t resp qt || smartRule3 t resp qt ||
    smartRule4 t resp qt || smartRule5 t resp qt

/-- Embedding of `_should_skip_question`.  With no conditional logic the smart rules
apply.  Pattern 1 (`if Qn = 'v'`): if the referenced question is answered,
skip unless the normalised answer equals the normalised expected value;
otherwise skip for now.  Pattern 2 (`skip if Qn != 'v'`): if answered, skip
when the values differ; otherwise do not skip.  An unparseable rule string
falls through to the smart rules. -/
def shouldSkipQuestion (t : FormTemplate) (resp : List (String × String)) (q : Question) : Bool :=
  match q.conditional_logic with
  | none => applySmartSkipRules t resp q
  | some (.equalsRule num expected) =>
    match findAnsweredRef t resp num with
    | some a => normAns a != normAns expected
    | none => true
  | some (.notEqualsRule num expected) =>
    match findAnsweredRef t resp num with
    | some a => normAns a != normAns expected
    | none => false
  | some .unmatched => applySmartSkipRules t resp q

/-! ## Answer validator (`_validate_answer`, `_validate_descriptive_answer`) -/

/-- Outcome of the delegated Language Service call inside
`_validate_descriptive_answer`: either the model reply content, or any
raised exception (`err`). -/
inductive LangResult where
  | ok (content : String)
  | err
deriving DecidableEq

/-- Characters of the local part of the email pattern
`[a-zA-Z0-9._%+-]`. -/
def emailLocalChar (c : Char) : Bool :=
  c.isAlpha || c.isDigit || c == '.' || c == '_' || c == '%' || c == '+' || c == '-'

/-- Characters of the domain body of the email pattern `[a-zA-Z0-9.-]`. -/
def emailDomChar (c : Char) : Bool :=
  c.isAlpha || c.isDigit || c == '.' || c == '-'

/-- Split a character list at the first occurrence of `sep`. -/
def splitFirst (sep : Char) : List Char → Option (List Char × List Char)
  | [] => none
  | c :: cs =>
    if c = sep then some ([], cs)
    else
      match splitFirst sep cs with
      | some (a, b) => some (c :: a, b)
      | none => none

/-- The domain side of the email pattern: `[a-zA-Z0-9.-]+\.[a-zA-Z]{2,}$`.
Equivalent formulation via the last dot: a non-empty body of domain
characters, a dot, and a purely alphabetic TLD of length at least two
(the regex alternative with any other dot would force dots into the
alphabetic tail). -/
def emailDomainMatch (cs : List Char) : Bool :=
  match splitFirst '.' cs.reverse with
  | some (tldRev, preRev) =>
    let tld := tldRev.reverse
    let pre := preRev.reverse
    !pre.isEmpty && pre.all emailDomChar && decide (2 ≤ tld.length) && tld.all (fun c => c.isAlpha)
  | none => false

/-- Semantics of `re.match` of `^[a-zA-Z0-9._%+-]+@[a-zA-Z0-9.-]+\.[a-zA-Z]{2,}$`:
a non-empty local part (which cannot contain `@`, so the first `@` is the
separator), then a domain matching `emailDomainMatch`. -/
def emailMatch (s : String) : Bool :=
  match splitFirst '@' s.data with
  | some (loc, dom) => !loc.isEmpty && loc.all emailLocalChar && emailDomainMatch dom
  | none => false

/-- Character class `[\d\s\-\(\)]` of the phone pattern. -/
def phoneChar (c : Char) : Bool :=
  c.isDigit || c.isWhitespace || c == '-' || c == '(' || c == ')'

/-- Semantics of `re.search(r'[\d\s\-\(\)]{10,}', s)`: some run of at least ten
consecutive digit/whitespace/separator characters. -/
def phoneSearch (s : String) : Bool :=
  existsRun phoneChar 10 s.data

/-- The slash-or-dash separator class of the date patterns. -/
def dateSep (c : Char) : Bool :=
  c == '/' || c == '-'

/-- Rests of `cs` after consuming one or two leading digits (`\d{1,2}`,
both backtracking alternatives). -/
def afterD12 : List Char → List (List Char)
  | [] => []
  | c :: rest =>
    if c.isDigit then
      rest ::
        (match rest with
         | c2 :: rest2 => if c2.isDigit then [rest2] else []
         | [] => [])
    else []

/-- Rest of `cs` after consuming exactly four leading digits (`\d{4}`). -/
def afterD4 (cs : List Char) : Option (List Char) :=
  match cs with
  | c1 :: c2 :: c3 :: c4 :: rest =>
    if c1.isDigit && c2.isDigit && c3.isDigit && c4.isDigit then some rest else none
  | _ => none

/-- Date pattern `\d{1,2}` sep `\d{1,2}` sep `\d{4}` (seps drawn from slash or dash) anchored at this position. -/
def dateMatchA (cs : List Char) : Bool :=
  (afterD12 cs).any (fun r1 =>
    match r1 with
    | s1 :: r2 =>
      dateSep s1 &&
        (afterD12 r2).any (fun r3 =>
          match r3 with
          | s2 :: r4 => dateSep s2 && (afterD4 r4).isSome
          | [] => false)
    | [] => false)

/-- Date pattern `\d{4}` sep `\d{1,2}` sep `\d{1,2}` (seps drawn from slash or dash) anchored at this position. -/
def dateMatchB (cs : List Char) : Bool :=
  match afterD4 cs with
  | some (s1 :: r1) =>
    dateSep s1 &&
      (afterD12 r1).any (fun r2 =>
        match r2 with
        | s2 :: r3 =>
          dateSep s2 &&
            (match r3 with
             | d :: _ => d.isDigit
             | [] => false)
        | [] => false)
  | _ => false

/-- Date pattern `[A-Za-z]+ \d{1,2},? \d{4}` anchored at this position.
For search existence a single letter before the space suffices (a longer
letter run matches starting at its last letter). -/
def dateMatchC (cs : List Char) : Bool :=
  match cs with
  | a :: sp :: rest =>
    a.isAlpha && sp == ' ' &&
      (afterD12 rest).any (fun r1 =>
        match r1 with
        | ',' :: ' ' :: r2 => (afterD4 r2).isSome
        | ' ' :: r2 => (afterD4 r2).isSome
        | _ => false)
  | _ => false

/-- Disjunction (`re.search`) over the three date patterns of the validator. -/
def dateSearch (s : String) : Bool :=
  (List.range (s.data.length + 1)).any (fun i =>
    dateMatchA (s.data.drop i) || dateMatchB (s.data.drop i) || dateMatchC (s.data.drop i))

/-- Semantics of `re.search(r'\d+', s)`. -/
def hasDigit (s : String) : Bool :=
  s.data.any (fun c => c.isDigit)

/-- Field types treated as single-choice: `categorical_types`. -/
def categoricalTypes : List String :=
  ["dropdown", "drop down-single select", "radio", "single select"]

/-- Field types treated as multi-choice. -/
def multiTypes : List String :=
  ["checkbox", "multi select"]

/-- Field types routed directly to the Language Service. -/
def textLikeTypes : List String :=
  ["text", "free text box", "textarea"]

/-- Guard of the email branch: `'email' in field_type`. -/
def emailGuard (ft : String) : Bool :=
  containsSub ft "email"

/-- Guard of the phone branch:
`'phone' in field_type or 'phone' in question.question_text.lower()`. -/
def phoneGuard (ft qtext : String) : Bool :=
  containsSub ft "phone" || containsSub (lowerStr qtext) "phone"

/-- Guard of the date branch:
`'date' in field_type or 'birth' in question.question_text.lower()`. -/
def dateGuard (ft qtext : String) : Bool :=
  containsSub ft "date" || containsSub (lowerStr qtext) "birth"

/-- Guard of the number branch:
`'number' in field_type or '$' in question.question_text` (the question
text is *not* lower-cased here). -/
def numberGuard (ft qtext : String) : Bool :=
  containsSub ft "number" || containsSub qtext "$"

/-- The `should_validate_with_gpt` condition, with `answer` the
already-stripped local variable of `_validate_answer`. -/
def shouldValidateWithGpt (answer : String) (q : Question) : Bool :=
  textLikeTypes.contains (lowerStr q.field_type) ||
    q.field_responses.isEmpty ||
    (!q.field_responses.isEmpty &&
      !(q.field_responses.any (fun opt => containsSub (lowerStr opt) (trimStr (lowerStr answer)))) &&
      !(q.field_responses.any (fun opt => containsSub (trimStr (lowerStr answer)) (lowerStr opt))))

/-- One step of the line-oriented parse of the Language Service reply in
`_validate_descriptive_answer`: state is
`(is_valid, response_type, reason, example)`, updated by the four
`startswith` cases. -/
def parseJudgeLine (st : Bool × String × String × String) (line : String) : Bool × String × String × String :=
  let isValid := st.1
  let rtype := st.2.1
  let reason := st.2.2.1
  let ex := st.2.2.2
  if startsWithL "VALID:".data line.data then (containsSub (lowerStr line) "true", rtype, reason, ex)
  else if startsWithL "TYPE:".data line.data then (isValid, lowerStr (trimStr (line.replace "TYPE:" "")), reason, ex)
  else if startsWithL "REASON:".data line.data then (isValid, rtype, trimStr (line.replace "REASON:" ""), ex)
  else if startsWithL "EXAMPLE:".data line.data then (isValid, rtype, reason, trimStr (line.replace "EXAMPLE:" ""))
  else st

/-- Embedding of `_validate_descriptive_answer`: on any raised error from the Language
Service call, accept the answer (`except` branch).  Otherwise parse the
reply line by line and either accept or build the rejection message. -/
def validateDescriptiveAnswer (r : LangResult) (_answer : String) (_q : Question) : Bool × Option String :=
  match r with
  | .err => (true, none)
  | .ok content =>
    let result := trimStr content
    let st := (result.splitOn "\n").foldl parseJudgeLine (false, "", "", "")
    let isValid := st.1
    let rtype := st.2.1
    let reason := st.2.2.1
    let ex := st.2.2.2
    if isValid then (true, none)
    else if rtype = "question" then
      let sugg := "I understand you\x27re asking about this. " ++ reason
      let sugg := if ex ≠ "" then sugg ++ "\n\n💡 **To answer this question, try:** " ++ ex else sugg
      (false, some sugg)
    else
      let sugg := reason
      let sugg := if ex ≠ "" then sugg ++ "\n\n💡 **Example of a good answer:** " ++ ex else sugg
      (false, some sugg)

/-- The single-choice branch of `_validate_answer`: exact normalised match,
then substring containment either way, then the yes/no synonym sets, then
the special long-answer guidance for a literal Yes/No pair, otherwise the
generic option-list message. -/
def validateCategorical (answer : String) (q : Question) : Bool × Option String :=
  let validOptions := q.field_responses.map (fun opt => (trimStr (lowerStr opt)))
  let answerLower := (trimStr (lowerStr answer))
  if validOptions.contains answerLower then (true, none)
  else if validOptions.any (fun opt => containsSub opt answerLower || containsSub answerLower opt) then
    (true, none)
  else if ["y", "yes", "yep", "yeah"].contains answerLower &&
      validOptions.any (fun opt => containsSub (lowerStr opt) "yes") then
    (true, none)
  else if ["n", "no", "nope", "nah"].contains answerLower &&
      validOptions.any (fun opt => containsSub (lowerStr opt) "no") then
    (true, none)
  else if q.field_responses.length == 2 &&
      (q.field_responses.map (fun r0 => lowerStr r0)).all (fun opt => ["yes", "no"].contains (lowerStr opt)) &&
      decide (3 < wordCount answer) then
    (false, some ("This question needs a simple Yes or No answer. Please choose: " ++ joinSep " or " q.field_responses))
  else
    (false, some ("Please choose one of these options: " ++ joinSep " • " q.field_responses))

/-- The multi-choice branch of `_validate_answer`: accept when at least one
choice occurs (case-insensitively) inside the answer. -/
def validateMulti (answer : String) (q : Question) : Bool × Option String :=
  let answerLower := lowerStr answer
  if q.field_responses.any (fun opt => containsSub answerLower (lowerStr opt)) then (true, none)
  else (false, some ("Please select from these options: " ++ joinSep " • " q.field_responses))

/-- The tail of `_validate_answer`: delegate to the Language Service when
`should_validate_with_gpt` holds, otherwise accept. -/
def gptStage (r : LangResult) (answer : String) (q : Question) : Bool × Option String :=
  if shouldValidateWithGpt answer q then validateDescriptiveAnswer r answer q else (true, none)

/-- Embedding of `_validate_answer`.  The branch for a field kind that *passes* its
format check falls through to the Language Service stage (the source
returns early only on failure); the single- and multi-choice branches
return in all their cases; a choice-bearing question of any other field
type falls through to the Language Service stage. -/
def validateAnswer (r : LangResult) (rawAnswer : String) (q : Question) : Bool × Option String :=
  let answer := trimStr rawAnswer
  if answer = "" then (false, some "Please provide an answer to continue.")
  else
    let ft := (lowerStr q.field_type)
    if emailGuard ft then
      if emailMatch answer then gptStage r answer q
      else (false, some "Please provide a valid email address (e.g., john@example.com)")
    else if phoneGuard ft q.question_text then
      if phoneSearch answer then gptStage r answer q
      else (false, some "Please provide a valid phone number with at least 10 digits (e.g., 555-123-4567)")
    else if dateGuard ft q.question_text then
      if dateSearch answer then gptStage r answer q
      else (false, some "Please provide a valid date (e.g., 01/15/1990, January 15, 1990, or 1990-01-15)")
    else if numberGuard ft q.question_text then
      if hasDigit answer then gptStage r answer q
      else (false, some "Please provide a number (digits only or with dollar sign for money amounts)")
    else if !q.field_responses.isEmpty then
      if categoricalTypes.contains ft then validateCategorical answer q
      else if multiTypes.contains ft then validateMulti answer q
      else gptStage r answer q
    else gptStage r answer q

/-- The control-flow condition under which `_validate_answer` actually
performs the delegated Language Service call: a non-empty stripped answer,
every format branch either not taken or passed, no single- or multi-choice
return, and `should_validate_with_gpt`. -/
def reachesGpt (rawAnswer : String) (q : Question) : Bool :=
  let answer := trimStr rawAnswer
  let ft := (lowerStr q.field_type)
  answer != "" &&
    (if emailGuard ft then emailMatch answer
     else if phoneGuard ft q.question_text then phoneSearch answer
     else if dateGuard ft q.question_text then dateSearch answer
     else if numberGuard ft q.question_text then hasDigit answer
     else if !q.field_responses.isEmpty then
       !categoricalTypes.contains ft && !multiTypes.contains ft
     else true) &&
    shouldValidateWithGpt answer q

/-! ## Intent classifiers (`_is_help_request`, `_is_avoidance`,
`_is_confusion_expression`) -/

/-- The twenty `help_patterns`. -/
def helpPatterns : List (List RxTok) :=
  [[.lit "why", .gap, .lit "need", .gap, .lit "this"],
   [.lit "why", .gap, .lit "ask", .gap, .lit "this"],
   [.lit "what", .gap, .lit "for"],
   [.lit "help"],
   [.lit "explain"],
   [.lit "don\x27t understand"],
   [.lit "not sure"],
   [.lit "what", .gap, .lit "mean"],
   [.lit "what does", .gap, .lit "mean"],
   [.lit "what is", .gap, .lit "mean"],
   [.lit "what is ", .wordChar],
   [.lit "what does ", .wordChar],
   [.gap, .lit "what does this mean"],
   [.gap, .lit "what is this"],
   [.lit "can you explain"],
   [.lit "can you share"],
   [.lit "tell me about"],
   [.lit "how", .gap, .lit "used"],
   [.lit "what", .gap, .lit "happen", .gap, .lit "with"],
   [.lit "what", .gap, .lit "do", .gap, .lit "with"]]

/-- The twelve `avoidance_patterns` (the bracket class in the source holds
the ASCII apostrophe three times, so it is the singleton class). -/
def avoidancePatterns : List (List RxTok) :=
  [[.lit "don", .optChars ['\x27'], .lit "t want to answer"],
   [.lit "dotn", .optChars ['\x27'], .lit " want to answer"],
   [.lit "dont want to answer"],
   [.lit "skip this"],
   [.lit "pass"],
   [.lit "next question"],
   [.lit "don", .optChars ['\x27'], .lit "t want to say"],
   [.lit "prefer not to"],
   [.lit "rather not"],
   [.lit "none of your business"],
   [.lit "private"],
   [.lit "can", .optChars ['\x27'], .lit "t answer"]]

/-- The ten `confusion_patterns`. -/
def confusionPatterns : List (List RxTok) :=
  [[.lit "i don", .optChars ['\x27'], .lit "t get it"],
   [.lit "don", .optChars ['\x27'], .lit "t understand"],
   [.lit "why", .gap, .lit "question"],
   [.lit "why", .gap, .lit "ask"],
   [.lit "confused"],
   [.lit "what does this mean"],
   [.lit "i don", .optChars ['\x27'], .lit "t know why"],
   [.lit "not sure why"],
   [.lit "why do you need"],
   [.lit "what", .optChars ['\x27'], .lit "s the point"]]

/-- Embedding of `_is_help_request`. -/
def isHelpRequest (input : String) : Bool :=
  helpPatterns.any (fun p => rxSearch p (lowerStr input).data)

/-- Embedding of `_is_avoidance`. -/
def isAvoidance (input : String) : Bool :=
  avoidancePatterns.any (fun p => rxSearch p (lowerStr input).data)

/-- Embedding of `_is_confusion_expression`. -/
def isConfusionExpression (input : String) : Bool :=
  confusionPatterns.any (fun p => rxSearch p (lowerStr input).data)

/-! ## Standard field extractor (`_update_standard_fields`) -/

/-- Embedding of `_update_standard_fields`: keyword containment on the lower-cased
question text selects at most one attribute to overwrite with the answer;
the first matching branch of the chain wins and no branch matching leaves
both records unchanged. -/
def updateStandardFields (q : Question) (answer : String) (pi : PersonalInfo) (ai : AddressInfo) :
    PersonalInfo × AddressInfo :=
  let ql := (lowerStr q.question_text)
  if containsSub ql "first name" then ({ pi with person_first_name := some answer }, ai)
  else if containsSub ql "last name" then ({ pi with person_last_name := some answer }, ai)
  else if containsSub ql "email" then ({ pi with person_email_address := some answer }, ai)
  else if containsSub ql "phone" then ({ pi with person_phone_number := some answer }, ai)
  else if containsSub ql "birth" || containsSub ql "age" then
    ({ pi with person_date_of_birth := some answer }, ai)
  else if containsSub ql "gender" then ({ pi with person_gender := some answer }, ai)
  else if containsSub ql "race" then ({ pi with person_race := some answer }, ai)
  else if containsSub ql "ethnicity" then ({ pi with person_ethnicity := some answer }, ai)
  else if containsSub ql "marital" then ({ pi with person_marital_status := some answer }, ai)
  else if containsSub ql "address" && containsSub ql "line 1" then
    (pi, { ai with address_line_1 := some answer })
  else if containsSub ql "city" then (pi, { ai with address_city := some answer })
  else if containsSub ql "state" then (pi, { ai with address_state := some answer })
  else if containsSub ql "zip" || containsSub ql "postal" then
    (pi, { ai with address_postal_code := some answer })
  else (pi, ai)

/-! ## Conversation session (`ChatbotEngine` state and operations) -/

/-- The mutable state of `ChatbotEngine` (the conversation history, which
only feeds prompts, is not modelled). -/
structure EngineState where
  currentTemplate : Option FormTemplate := none
  currentQuestion : Option Question := none
  responses : List (String × String) := []
  personalInfo : PersonalInfo := {}
  addressInfo : AddressInfo := {}
deriving DecidableEq

/-- The freshly constructed engine (`__init__`). -/
def initState : EngineState := {}

/-- Embedding of `start_conversation`: bind the template and reset the response map and
both accumulators.  The source does *not* reset `current_question`.  The
returned welcome text is presentation-only and omitted. -/
def startConversation (t : FormTemplate) (s : EngineState) : EngineState :=
  { s with
    currentTemplate := some t
    responses := []
    personalInfo := {}
    addressInfo := {} }

/-- Embedding of `get_next_question`: scan the template in order for the first question
that has no recorded answer and is not skipped; set `current_question` to
it and return it.  When none remains (or no template is bound) the state —
including `current_question` — is left unchanged and `None` is returned.
The source formats the returned question into a presentation string; the
selected `Question` itself is returned here. -/
def getNextQuestion (s : EngineState) : EngineState × Option Question :=
  match s.currentTemplate with
  | none => (s, none)
  | some t =>
    match t.questions.find? (fun q => !dictContains s.responses q.id && !shouldSkipQuestion t s.responses q) with
    | some q => ({ s with currentQuestion := some q }, some q)
    | none => (s, none)

/-- Observable outcome of one `process_answer` call (the chatty response
strings, which are partly randomised, are not modelled; `rejected` carries
the validator's suggestion, the third component of the source's return
triple). -/
inductive TurnResult where
  | noQuestion
  | helpReply
  | avoidReply
  | accepted
  | rejected (suggestion : Option String)
deriving DecidableEq

/-- Embedding of `process_answer`: with no current question, or on a help/confusion or
avoidance classification, the state is unchanged.  On a validator
acceptance the answer is recorded under the current question's id, the
standard field extractor runs, and `get_next_question` is called (which
reassigns `current_question` only when an unanswered question remains).
On rejection the state is unchanged and the suggestion surfaced. -/
def processAnswer (r : LangResult) (input : String) (s : EngineState) : EngineState × TurnResult :=
  match s.currentQuestion with
  | none => (s, .noQuestion)
  | some q =>
    if isHelpRequest input || isConfusionExpression input then (s, .helpReply)
    else if isAvoidance input then (s, .avoidReply)
    else
      match validateAnswer r input q with
      | (true, _) =>
        let resp := dictInsert s.responses q.id input
        let acc := updateStandardFields q input s.personalInfo s.addressInfo
        let s1 := { s with responses := resp, personalInfo := acc.1, addressInfo := acc.2 }
        ((getNextQuestion s1).1, .accepted)
      | (false, sugg) => (s, .rejected sugg)

/-- One externally invokable session operation. -/
inductive EngineOp where
  | start (t : FormTemplate)
  | next
  | answer (r : LangResult) (input : String)

/-- Apply one operation to the state (discarding the returned value). -/
def applyOp (s : EngineState) : EngineOp → EngineState
  | .start t => startConversation t s
  | .next => (getNextQuestion s).1
  | .answer r input => (processAnswer r input s).1

/-- Run a sequence of session operations from a state. -/
def runOps (s : EngineState) (ops : List EngineOp) : EngineState :=
  ops.foldl applyOp s

/-! ## Submission assembler (`create_assistance_request`) -/

/-- The fresh `uuid.uuid4()` values drawn by `create_assistance_request`
(the last one is used for `form_id` only when no template is bound). -/
structure FreshIds where
  arId : String
  serviceId : String
  providerId : String
  caseId : String
  fallbackFormId : String
deriving DecidableEq

/-- Embedding of `create_assistance_request`: a total construction — the source performs
no completeness or state check and cannot raise — snapshotting the current
accumulators and response map.  The two `datetime.now()` calls are the two
timestamp parameters. -/
def createAssistanceRequest (s : EngineState) (description : String) (ids : FreshIds)
    (now1 now2 : Nat) : AssistanceRequest :=
  { assistance_request_id := ids.arId
    description := description
    service_id := ids.serviceId
    provider_id := ids.providerId
    case_id := ids.caseId
    form_id :=
      match s.currentTemplate with
      | some t => t.id
      | none => ids.fallbackFormId
    personal_info := s.personalInfo
    address_info := s.addressInfo
    custom_responses := s.responses
    created_at := now1
    updated_at := now2 }

/-- Formalisation of the incompleteness condition named by the
specification for finalisation: some question of the bound template is
required, currently unanswered, and not skipped under the current
responses (`false` when no template is bound). -/
def hasUnansweredRequired (s : EngineState) : Bool :=
  match s.currentTemplate with
  | none => false
  | some t =>
    t.questions.any (fun q =>
      q.required && !dictContains s.responses q.id && !shouldSkipQuestion t s.responses q)

/-! ## Concrete fixtures used by witnesses and counterexamples -/

/-- A single-choice yes/no question. -/
def qYesNo : Question :=
  { id := "q1", number := 1, question_text := "Are you married?", field_type := "radio",
    field_responses := ["Yes", "No"] }

/-- A one-question template. -/
def tDemo : FormTemplate :=
  { id := "t6", name := "Demo Intake", organization := "Org", description := "d",
    questions := [qYesNo] }

/-- A phone-kind question without preset choices. -/
def qPhone : Question :=
  { id := "p1", number := 1, question_text := "Phone Number", field_type := "phone",
    field_responses := [] }

/-- A marital-status question referenced by number 1. -/
def qMarital : Question :=
  { id := "a", number := 1, question_text := "Marital Status", field_type := "radio",
    field_responses := ["Married", "Single"] }

/-- A follow-up carrying the parsed rule `skip if Q1 != 'Married'`. -/
def qSpouse : Question :=
  { id := "b", number := 2, question_text := "Name of spouse", field_type := "text",
    field_responses := [], conditional_logic := some (.notEqualsRule 1 "Married") }

/-- Template holding `qMarital` and `qSpouse`. -/
def tMarital : FormTemplate :=
  { id := "t2", name := "Marital", organization := "o", description := "",
    questions := [qMarital, qSpouse] }

/-- Responses with question 1 answered `married`. -/
def respMarried : List (String × String) := [("a", "married")]

/-- Responses with question 1 answered `single`. -/
def respSingle : List (String × String) := [("a", "single")]

/-- A court-case question with number 2. -/
def qCourt : Question :=
  { id := "x", number := 2, question_text := "Do you have a court case?", field_type := "radio",
    field_responses := ["Yes", "No"] }

/-- A follow-up carrying the parsed rule `if Q2 = 'Yes'`. -/
def qReferral : Question :=
  { id := "y", number := 3, question_text := "Referral source", field_type := "text",
    field_responses := [], conditional_logic := some (.equalsRule 2 "Yes") }

/-- Template holding `qCourt` and `qReferral`. -/
def tCourt : FormTemplate :=
  { id := "t3", name := "Court", organization := "o", description := "",
    questions := [qCourt, qReferral] }

/-- A free-text question. -/
def qFreeText : Question :=
  { id := "ft", number := 1, question_text := "Tell us about your situation", field_type := "text",
    field_responses := [] }

/-- A question whose prompt matches no standard-field keyword. -/
def qColor : Question :=
  { id := "c", number := 1, question_text := "Favorite color", field_type := "text",
    field_responses := [] }

/-- A contact-preference question. -/
def qContactPref : Question :=
  { id := "f", number := 1, question_text := "Preferred Method of contact", field_type := "checkbox",
    field_responses := ["Phone", "Email"] }

/-- A secondary-contact question without conditional logic. -/
def qSecondary : Question :=
  { id := "s", number := 2, question_text := "Secondary Contact Information to reach you (Phone Number)",
    field_type := "phone", field_responses := [] }

/-- Template holding `qContactPref` and `qSecondary`. -/
def tContact : FormTemplate :=
  { id := "t10", name := "Contact", organization := "o", description := "",
    questions := [qContactPref, qSecondary] }

/-- Responses with the contact-preference question answered by a refusal. -/
def respRefusal : List (String × String) := [("f", "No thanks")]

/-- Fixed fresh identifiers for `createAssistanceRequest`. -/
def sampleIds : FreshIds :=
  { arId := "a", serviceId := "s", providerId := "p", caseId := "c", fallbackFormId := "f" }

/-- The session just after binding `tDemo`, nothing answered. -/
def emptySession : EngineState := startConversation tDemo initState

/-- The session after binding `tDemo`, presenting `qYesNo` and answering
it: every question is answered, yet `current_question` still points at
`qYesNo`. -/
def staleState : EngineState :=
  runOps initState [.start tDemo, .next, .answer .err "yes"]

/-- The session after binding `tDemo` and presenting `qYesNo`. -/
def readyState : EngineState :=
  runOps initState [.start tDemo, .next]

/-- Number of digit characters of a string — the measure the specification
uses for phone answers. -/
def digitCount (s : String) : Nat :=
  (s.data.filter (fun c => c.isDigit)).length

/-! ## Auxiliary lemmas -/

/-- Looking up the key just written returns the written value. -/
theorem dictLookup_dictInsert_self (m : List (String × String)) (k v : String) :
    dictLookup (dictInsert m k v) k = some v := by
  induction m with
  | nil => simp [dictInsert, dictLookup]
  | cons p rest ih =>
    obtain ⟨pk, pv⟩ := p
    by_cases h : pk = k <;> simp [dictInsert, dictLookup, h, ih]

/-- Writing one key leaves every other key's lookup unchanged. -/
theorem dictLookup_dictInsert_ne (m : List (String × String)) (k v k' : String) (h : k' ≠ k) :
    dictLookup (dictInsert m k v) k' = dictLookup m k' := by
  induction m with
  | nil => simp [dictInsert, dictLookup, Ne.symm h]
  | cons p rest ih =>
    obtain ⟨pk, pv⟩ := p
    by_cases hpk : pk = k
    · subst hpk
      simp [dictInsert, dictLookup, Ne.symm h]
    · simp [dictInsert, dictLookup, hpk, ih]

/-- Inserting an absent key appends: the map grows by exactly one entry. -/
theorem dictInsert_length_of_not_contains (m : List (String × String)) (k v : String)
    (h : dictContains m k = false) :
    (dictInsert m k v).length = m.length + 1 := by
  induction m with
  | nil => rfl
  | cons p rest ih =>
    obtain ⟨pk, pv⟩ := p
    by_cases hpk : pk = k
    · subst hpk
      simp [dictContains, dictLookup] at h
    · simp only [dictContains, dictLookup, hpk, if_neg] at h
      simp [dictInsert, hpk, ih h]

/-- Operation `get_next_question` never touches the response map. -/
theorem getNextQuestion_responses (s : EngineState) :
    (getNextQuestion s).1.responses = s.responses := by
  unfold getNextQuestion
  repeat' split
  all_goals rfl

/-- Operation `get_next_question` never clears a set `current_question`: it either
reassigns it to the found question or leaves the state untouched. -/
theorem getNextQuestion_keeps_some (s : EngineState) (h : s.currentQuestion.isSome = true) :
    ((getNextQuestion s).1.currentQuestion).isSome = true := by
  unfold getNextQuestion
  repeat' split
  all_goals simp [h]

/-! ## Claim C1 — finalisation and completeness -/

/-- C1 (counterexample): a freshly bound session leaves the required,
non-skipped question `qYesNo` unanswered, yet `create_assistance_request`
does not fail — the source contains no completeness check and no raise —
and returns a fully formed `AssistanceRequest` with an empty response
snapshot, contradicting the claim that no request is ever returned for an
incomplete session. -/
theorem C1_counterexample :
    hasUnansweredRequired emptySession = true ∧
    createAssistanceRequest emptySession "d" sampleIds 0 0 =
      { assistance_request_id := "a", description := "d", service_id := "s", provider_id := "p",
        case_id := "c", form_id := "t6", personal_info := {}, address_info := {},
        custom_responses := [], created_at := 0, updated_at := 0 } := by
  exact ⟨by decide, rfl⟩

/-- C1 (amended): `create_assistance_request` performs no completeness
check: even when a required, non-skipped question is unanswered it
returns an `AssistanceRequest` snapshotting the current accumulators and
response map, raising nothing. -/
theorem C1_finalize_no_completeness_check (s : EngineState) (d : String) (ids : FreshIds)
    (n1 n2 : Nat) (_h : hasUnansweredRequired s = true) :
    (createAssistanceRequest s d ids n1 n2).custom_responses = s.responses ∧
    (createAssistanceRequest s d ids n1 n2).personal_info = s.personalInfo ∧
    (createAssistanceRequest s d ids n1 n2).address_info = s.addressInfo :=
  ⟨rfl, rfl, rfl⟩

/-- Witness for C1: the amended theorem applied to the incomplete
`emptySession`. -/
theorem C1_witness :
    (createAssistanceRequest emptySession "d" sampleIds 0 0).custom_responses = emptySession.responses ∧
    (createAssistanceRequest emptySession "d" sampleIds 0 0).personal_info = emptySession.personalInfo ∧
    (createAssistanceRequest emptySession "d" sampleIds 0 0).address_info = emptySession.addressInfo :=
  C1_finalize_no_completeness_check emptySession "d" sampleIds 0 0 (by decide)

/-! ## Claim C2 — `NotEquals` comparison direction -/

/-- C2 (counterexample): under the rule `skip if Q1 != 'Married'` with the
referenced answer recorded as `married` — equal to the expected value after
trimming and case-folding — the evaluator does *not* skip, whereas the
claim (`NotEquals` skips when equal) demands a skip. -/
theorem C2_counterexample :
    qSpouse.conditional_logic = some (.notEqualsRule 1 "Married") ∧
    findAnsweredRef tMarital respMarried 1 = some "married" ∧
    normAns "married" = normAns "Married" ∧
    shouldSkipQuestion tMarital respMarried qSpouse = false := by
  exact ⟨rfl, by decide, by decide, by decide⟩

/-- C2 (amended): for a `NotEquals(n, expected)` rule whose referenced
question has a recorded answer, `should_skip` returns true if and only if
the answer and the expected value *differ* after trimming and
case-folding — `NotEquals` skips when unequal, not when equal. -/
theorem C2_notEquals_skips_when_unequal (t : FormTemplate) (resp : List (String × String))
    (q : Question) (n : Nat) (e a : String)
    (h1 : q.conditional_logic = some (.notEqualsRule n e))
    (h2 : findAnsweredRef t resp n = some a) :
    (shouldSkipQuestion t resp q = true ↔ normAns a ≠ normAns e) := by
  simp [shouldSkipQuestion, h1, h2, bne_iff_ne]

/-- Witness for C2: the amended theorem applied with recorded answer
`single` against expected value `Married`. -/
theorem C2_witness :
    shouldSkipQuestion tMarital respSingle qSpouse = true ↔ normAns "single" ≠ normAns "Married" :=
  C2_notEquals_skips_when_unequal tMarital respSingle qSpouse 1 "Married" "single" rfl (by decide)

/-! ## Claim C3 — `Equals` rule semantics -/

/-- C3: for a question carrying the rule `Equals(order=2, "Yes")`, the
evaluator skips when question 2 has no recorded answer, skips when the
recorded answer differs from `yes` after trimming and case-folding, and
presents the question (returns false) exactly when it equals `yes`. -/
theorem C3_equals_rule_semantics (t : FormTemplate) (resp : List (String × String)) (q : Question)
    (h : q.conditional_logic = some (.equalsRule 2 "Yes")) :
    (findAnsweredRef t resp 2 = none → shouldSkipQuestion t resp q = true) ∧
    (∀ a, findAnsweredRef t resp 2 = some a →
      shouldSkipQuestion t resp q = (normAns a != "yes")) := by
  constructor
  · intro hn
    simp [shouldSkipQuestion, h, hn]
  · intro a ha
    have hy : normAns "Yes" = "yes" := by decide
    simp [shouldSkipQuestion, h, ha, hy]

/-- Witness for C3: with question 2 unanswered the rule question is
skipped; with question 2 answered `" YES "` it is presented. -/
theorem C3_witness :
    shouldSkipQuestion tCourt [] qReferral = true ∧
    shouldSkipQuestion tCourt [("x", " YES ")] qReferral = false := by
  constructor
  · exact (C3_equals_rule_semantics tCourt [] qReferral rfl).1 (by decide)
  · have h := (C3_equals_rule_semantics tCourt [("x", " YES ")] qReferral rfl).2 " YES " (by decide)
    rw [h]
    decide

/-! ## Claim C10 — smart rule 5 scans every recorded answer -/

/-- C10: a question without conditional logic whose lower-cased text
contains `secondary` or `alternate` is skipped whenever *any* recorded
answer of the template — regardless of which question it belongs to —
trims and lower-cases to one of `no`, `none`, `not needed`, `no thanks`,
`skip`. -/
theorem C10_smart_skip_refusal (t : FormTemplate) (resp : List (String × String)) (q : Question)
    (h1 : q.conditional_logic = none)
    (h2 : containsSub (lowerStr q.question_text) "secondary" = true ∨
      containsSub (lowerStr q.question_text) "alternate" = true)
    (h3 : ∃ p a, p ∈ t.questions ∧ dictLookup resp p.id = some a ∧
      (["no", "none", "not needed", "no thanks", "skip"].contains (normAns a)) = true) :
    shouldSkipQuestion t resp q = true := by
  obtain ⟨p, a, hp, hla, hmem⟩ := h3
  have h5 : smartRule5 t resp (lowerStr q.question_text) = true := by
    unfold smartRule5
    rw [Bool.and_eq_true]
    constructor
    · rcases h2 with h2 | h2 <;> simp [h2]
    · rw [List.any_eq_true]
      refine ⟨p, hp, ?_⟩
      simp only [hla]
      exact hmem
  simp [shouldSkipQuestion, h1, applySmartSkipRules, h5]

/-- Witness for C10: the secondary-contact question is skipped because the
unrelated contact-preference question was answered `No thanks`. -/
theorem C10_witness : shouldSkipQuestion tContact respRefusal qSecondary = true :=
  C10_smart_skip_refusal tContact respRefusal qSecondary rfl (Or.inl (by decide))
    ⟨qContactPref, "No thanks", by decide, by decide, by decide⟩

/-! ## Claim C4 — single-choice validation of the two concrete inputs -/

/-- C4 (counterexample): the input
`I'd rather not say much about that topic at all` is *accepted* by the
validator for the Yes/No single-choice question — the substring check
finds the choice `no` inside the word `not` before the long-answer
guidance branch is reached — contradicting the claimed rejection with the
two-choice guidance message. -/
theorem C4_counterexample :
    validateAnswer .err "I\x27d rather not say much about that topic at all" qYesNo = (true, none) := by
  decide

/-- C4 (amended): for the Yes/No single-choice question the validator
accepts `yeah` (via the yes-synonym set) and also accepts
`I'd rather not say much about that topic at all` (via substring
containment of the choice `no` inside `not`); no guidance message is
produced for either input. -/
theorem C4_choice_accepts_yeah_and_long_refusal :
    validateAnswer .err "yeah" qYesNo = (true, none) ∧
    validateAnswer .err "I\x27d rather not say much about that topic at all" qYesNo = (true, none) := by
  exact ⟨by decide, by decide⟩

/-! ## Claim C5 — phone validation counts a separator run, not digits -/

/-- C5 (code evaluation at the failing input): the answer `----------`
contains zero digit characters, yet the phone check passes — the pattern
accepts any run of ten characters drawn from digits, whitespace, dashes
and parentheses — and the validator accepts the answer (the subsequent
open-ended stage fails open), contradicting the at-least-ten-digits rule
stated by the claim and by the validator's own rejection message. -/
theorem C5_phone_validator_accepts_separator_run :
    digitCount "----------" = 0 ∧
    phoneSearch "----------" = true ∧
    validateAnswer .err "----------" qPhone = (true, none) := by
  exact ⟨by decide, by decide, by decide⟩

/-! ## Claims C6 and C7 — response-map growth and the stale current question -/

/-- Decomposition of `process_answer`: either the state's response map is
untouched (no current question, help/confusion, avoidance, or rejection),
or the current question exists and the map is exactly the dict-insert of
the raw input under its id. -/
theorem processAnswer_responses_cases (r : LangResult) (input : String) (s : EngineState) :
    (processAnswer r input s).1.responses = s.responses ∨
    ∃ q, s.currentQuestion = some q ∧
      (processAnswer r input s).1.responses = dictInsert s.responses q.id input := by
  unfold processAnswer
  cases hq : s.currentQuestion with
  | none => left; rfl
  | some q =>
    by_cases hh : (isHelpRequest input || isConfusionExpression input) = true
    · left; simp [hh]
    · by_cases ha : isAvoidance input = true
      · left; simp [hh, ha]
      · cases hv : validateAnswer r input q with
        | mk b sg =>
          cases b
          · left; simp [hh, ha, hv]
          · right
            exact ⟨q, rfl, by simp [hh, ha, hv, getNextQuestion_responses]⟩

/-- When `process_answer` reports acceptance, the new response map is the
dict-insert of the input under the current question's id, and
`current_question` is still set afterwards. -/
theorem processAnswer_accepted_shape (r : LangResult) (input : String) (s : EngineState)
    (q : Question) (hq : s.currentQuestion = some q)
    (hacc : (processAnswer r input s).2 = .accepted) :
    (processAnswer r input s).1.responses = dictInsert s.responses q.id input ∧
    (processAnswer r input s).1.currentQuestion.isSome = true := by
  unfold processAnswer at hacc ⊢
  rw [hq] at hacc ⊢
  by_cases hh : (isHelpRequest input || isConfusionExpression input) = true
  · simp [hh] at hacc
  · by_cases ha : isAvoidance input = true
    · simp [hh, ha] at hacc
    · cases hv : validateAnswer r input q with
      | mk b sg =>
        cases b
        · simp [hh, ha, hv] at hacc
        · constructor
          · simp [hh, ha, hv, getNextQuestion_responses]
          · simp only [hh, ha, hv]
            simp only [Bool.false_eq_true, if_false]
            apply getNextQuestion_keeps_some
            simp [hq]

/-- C6 (counterexample): a reachable operation sequence on a one-question
template in which the recorded answer for `q1` is first `yes` and, after a
further `process_answer` call made once every question is answered (the
stale `current_question` still points at `q1`), becomes `no` — an
in-place replacement, contradicting the claimed append-only property. -/
theorem C6_counterexample :
    (runOps initState [.start tDemo, .next, .answer .err "yes"]).responses = [("q1", "yes")] ∧
    (runOps initState [.start tDemo, .next, .answer .err "yes", .answer .err "no"]).responses
      = [("q1", "no")] := by
  exact ⟨by decide, by decide⟩

/-- C6 (amended): a stored value can change while staying present only
through `process_answer`, only at the key of the *current* question —
which, because `get_next_question` never clears `current_question`, can be
a question that already has a recorded answer once the template is
complete.  `start_conversation` and `get_next_question` never replace a
value, and `process_answer` cannot touch any key other than the current
question's id. -/
theorem C6_append_only_amended (s : EngineState) (op : EngineOp) (k v w : String)
    (h1 : dictLookup s.responses k = some v)
    (h2 : dictLookup (applyOp s op).responses k = some w)
    (h3 : w ≠ v) :
    ∃ r input q, op = .answer r input ∧ s.currentQuestion = some q ∧ q.id = k ∧ w = input := by
  cases op with
  | start t =>
    exfalso
    simp [applyOp, startConversation, dictLookup] at h2
  | next =>
    exfalso
    rw [show applyOp s .next = (getNextQuestion s).1 from rfl, getNextQuestion_responses, h1] at h2
    exact h3 (Option.some.inj h2).symm
  | answer r input =>
    rcases processAnswer_responses_cases r input s with hcase | ⟨q, hq, hcase⟩
    · exfalso
      rw [show applyOp s (.answer r input) = (processAnswer r input s).1 from rfl, hcase, h1] at h2
      exact h3 (Option.some.inj h2).symm
    · by_cases hk : k = q.id
      · subst hk
        rw [show applyOp s (.answer r input) = (processAnswer r input s).1 from rfl, hcase,
          dictLookup_dictInsert_self] at h2
        exact ⟨r, input, q, rfl, hq, rfl, (Option.some.inj h2).symm⟩
      · exfalso
        rw [show applyOp s (.answer r input) = (processAnswer r input s).1 from rfl, hcase,
          dictLookup_dictInsert_ne _ _ _ _ hk, h1] at h2
        exact h3 (Option.some.inj h2).symm

/-- Witness for C6: the amended theorem applied to the stale overwrite of
`q1` from `yes` to `no`. -/
theorem C6_witness :
    ∃ r input q, EngineOp.answer LangResult.err "no" = EngineOp.answer r input ∧
      staleState.currentQuestion = some q ∧ q.id = "q1" ∧ "no" = input :=
  C6_append_only_amended staleState (.answer .err "no") "q1" "yes" "no"
    (by decide) (by decide) (by decide)

/-- C7 (counterexample): after the single question of `tDemo` is answered,
`current_question` is still set (it is never cleared), and a further
accepted submit call leaves the response map at the same size — growth by
zero, not one — contradicting both parts of the claim. -/
theorem C7_counterexample :
    (processAnswer .err "no" staleState).2 = .accepted ∧
    (processAnswer .err "no" staleState).1.responses.length = staleState.responses.length ∧
    (processAnswer .err "no" staleState).1.currentQuestion = some qYesNo := by
  exact ⟨by decide, by decide, by decide⟩

/-- C7 (amended): for an accepted submit whose current question is *not*
already answered, the response map grows by exactly one entry keyed by the
current question's id and storing the raw input; and `current_question` is
never cleared — `process_answer` immediately re-runs the question scan, so
afterwards it is still set (to the next remaining question, or unchanged
when none remains). -/
theorem C7_accepted_submit_growth (s : EngineState) (r : LangResult) (input : String)
    (q : Question) (hq : s.currentQuestion = some q)
    (hnew : dictContains s.responses q.id = false)
    (hacc : (processAnswer r input s).2 = .accepted) :
    (processAnswer r input s).1.responses.length = s.responses.length + 1 ∧
    dictLookup (processAnswer r input s).1.responses q.id = some input ∧
    (processAnswer r input s).1.currentQuestion.isSome = true := by
  obtain ⟨hresp, hsome⟩ := processAnswer_accepted_shape r input s q hq hacc
  refine ⟨?_, ?_, hsome⟩
  · rw [hresp]
    exact dictInsert_length_of_not_contains _ _ _ hnew
  · rw [hresp]
    exact dictLookup_dictInsert_self _ _ _

/-- Witness for C7: the amended theorem applied to the first (non-stale)
accepted answer of the demo session. -/
theorem C7_witness :
    (processAnswer .err "yes" readyState).1.responses.length = readyState.responses.length + 1 ∧
    dictLookup (processAnswer .err "yes" readyState).1.responses qYesNo.id = some "yes" ∧
    (processAnswer .err "yes" readyState).1.currentQuestion.isSome = true :=
  C7_accepted_submit_growth readyState .err "yes" qYesNo (by decide) (by decide) (by decide)

/-! ## Claim C8 — fail-open on Language Service failure -/

/-- A failing Language Service call always yields acceptance with no
message: the `except` branch of `_validate_descriptive_answer`. -/
theorem gptStage_err (a : String) (q : Question) : gptStage .err a q = (true, none) := by
  unfold gptStage validateDescriptiveAnswer
  split <;> rfl

/-- C8: whenever `_validate_answer` actually reaches the delegated
Language Service call and that call fails (raises), the validator returns
accepted with no rejection message — the failure is swallowed, never
propagated. -/
theorem C8_fail_open (rawAnswer : String) (q : Question)
    (h : reachesGpt rawAnswer q = true) :
    validateAnswer .err rawAnswer q = (true, none) := by
  unfold reachesGpt at h
  simp only [Bool.and_eq_true, bne_iff_ne, ne_eq] at h
  obtain ⟨⟨h1, h2⟩, _h3⟩ := h
  clear _h3
  simp only [validateAnswer]
  rw [if_neg h1]
  by_cases hE : emailGuard (lowerStr q.field_type) = true
  · rw [if_pos hE] at h2 ⊢
    rw [if_pos h2]
    exact gptStage_err _ _
  · rw [if_neg hE] at h2 ⊢
    by_cases hP : phoneGuard (lowerStr q.field_type) q.question_text = true
    · rw [if_pos hP] at h2 ⊢
      rw [if_pos h2]
      exact gptStage_err _ _
    · rw [if_neg hP] at h2 ⊢
      by_cases hD : dateGuard (lowerStr q.field_type) q.question_text = true
      · rw [if_pos hD] at h2 ⊢
        rw [if_pos h2]
        exact gptStage_err _ _
      · rw [if_neg hD] at h2 ⊢
        by_cases hN : numberGuard (lowerStr q.field_type) q.question_text = true
        · rw [if_pos hN] at h2 ⊢
          rw [if_pos h2]
          exact gptStage_err _ _
        · rw [if_neg hN] at h2 ⊢
          by_cases hR : (!q.field_responses.isEmpty) = true
          · rw [if_pos hR] at h2 ⊢
            rw [Bool.and_eq_true, Bool.not_eq_true', Bool.not_eq_true'] at h2
            rw [if_neg (by simpa using h2.1), if_neg (by simpa using h2.2)]
            exact gptStage_err _ _
          · rw [if_neg hR] at h2 ⊢
            exact gptStage_err _ _

/-- Witness for C8: a free-text answer reaching the failing Language
Service call is accepted with no message. -/
theorem C8_witness : validateAnswer .err "blah" qFreeText = (true, none) :=
  C8_fail_open "blah" qFreeText (by decide)

/-! ## Claim C9 — the standard field extractor touches at most one field -/

/-- Number of attributes that differ between two `PersonalInfo` and two
`AddressInfo` records — the measure of the frame property. -/
def diffCount (pi1 pi2 : PersonalInfo) (ai1 ai2 : AddressInfo) : Nat :=
  (if pi1.person_first_name = pi2.person_first_name then 0 else 1) +
    (if pi1.person_last_name = pi2.person_last_name then 0 else 1) +
    (if pi1.person_date_of_birth = pi2.person_date_of_birth then 0 else 1) +
    (if pi1.person_middle_name = pi2.person_middle_name then 0 else 1) +
    (if pi1.person_preferred_name = pi2.person_preferred_name then 0 else 1) +
    (if pi1.person_gender = pi2.person_gender then 0 else 1) +
    (if pi1.person_citizenship = pi2.person_citizenship then 0 else 1) +
    (if pi1.person_ethnicity = pi2.person_ethnicity then 0 else 1) +
    (if pi1.person_marital_status = pi2.person_marital_status then 0 else 1) +
    (if pi1.person_race = pi2.person_race then 0 else 1) +
    (if pi1.person_phone_number = pi2.person_phone_number then 0 else 1) +
    (if pi1.person_email_address = pi2.person_email_address then 0 else 1) +
    (if ai1.address_type = ai2.address_type then 0 else 1) +
    (if ai1.address_line_1 = ai2.address_line_1 then 0 else 1) +
    (if ai1.address_line_2 = ai2.address_line_2 then 0 else 1) +
    (if ai1.address_city = ai2.address_city then 0 else 1) +
    (if ai1.address_state = ai2.address_state then 0 else 1) +
    (if ai1.address_country = ai2.address_country then 0 else 1) +
    (if ai1.address_postal_code = ai2.address_postal_code then 0 else 1)

/-- No keyword of the extractor's priority list occurs in the lower-cased
prompt: the negation of each branch condition of
`_update_standard_fields`. -/
def noStandardFieldKeyword (q : Question) : Bool :=
  let ql := (lowerStr q.question_text)
  !containsSub ql "first name" && !containsSub ql "last name" && !containsSub ql "email" &&
    !containsSub ql "phone" && !(containsSub ql "birth" || containsSub ql "age") &&
    !containsSub ql "gender" && !containsSub ql "race" && !containsSub ql "ethnicity" &&
    !containsSub ql "marital" && !(containsSub ql "address" && containsSub ql "line 1") &&
    !containsSub ql "city" && !containsSub ql "state" &&
    !(containsSub ql "zip" || containsSub ql "postal")

set_option maxHeartbeats 3200000 in
/-- Case analysis of `_update_standard_fields`: the result is either both
records unchanged or exactly one attribute overwritten with the answer. -/
theorem updateStandardFields_shape (q : Question) (answer : String) (pi : PersonalInfo)
    (ai : AddressInfo) :
    updateStandardFields q answer pi ai = (pi, ai) ∨
    updateStandardFields q answer pi ai = ({ pi with person_first_name := some answer }, ai) ∨
    updateStandardFields q answer pi ai = ({ pi with person_last_name := some answer }, ai) ∨
    updateStandardFields q answer pi ai = ({ pi with person_email_address := some answer }, ai) ∨
    updateStandardFields q answer pi ai = ({ pi with person_phone_number := some answer }, ai) ∨
    updateStandardFields q answer pi ai = ({ pi with person_date_of_birth := some answer }, ai) ∨
    updateStandardFields q answer pi ai = ({ pi with person_gender := some answer }, ai) ∨
    updateStandardFields q answer pi ai = ({ pi with person_race := some answer }, ai) ∨
    updateStandardFields q answer pi ai = ({ pi with person_ethnicity := some answer }, ai) ∨
    updateStandardFields q answer pi ai = ({ pi with person_marital_status := some answer }, ai) ∨
    updateStandardFields q answer pi ai = (pi, { ai with address_line_1 := some answer }) ∨
    updateStandardFields q answer pi ai = (pi, { ai with address_city := some answer }) ∨
    updateStandardFields q answer pi ai = (pi, { ai with address_state := some answer }) ∨
    updateStandardFields q answer pi ai = (pi, { ai with address_postal_code := some answer }) := by
  simp only [updateStandardFields]
  by_cases c1 : containsSub (lowerStr q.question_text) "first name" = true
  · rw [if_pos c1]
    exact (Or.inr (Or.inl rfl))
  · rw [if_neg c1]
    by_cases c2 : containsSub (lowerStr q.question_text) "last name" = true
    · rw [if_pos c2]
      exact (Or.inr (Or.inr (Or.inl rfl)))
    · rw [if_neg c2]
      by_cases c3 : containsSub (lowerStr q.question_text) "email" = true
      · rw [if_pos c3]
        exact (Or.inr (Or.inr (Or.inr (Or.inl rfl))))
      · rw [if_neg c3]
        by_cases c4 : containsSub (lowerStr q.question_text) "phone" = true
        · rw [if_pos c4]
          exact (Or.inr (Or.inr (Or.inr (Or.inr (Or.inl rfl)))))
        · rw [if_neg c4]
          by_cases c5 : (containsSub (lowerStr q.question_text) "birth" || containsSub (lowerStr q.question_text) "age") = true
          · rw [if_pos c5]
            exact (Or.inr (Or.inr (Or.inr (Or.inr (Or.inr (Or.inl rfl))))))
          · rw [if_neg c5]
            by_cases c6 : containsSub (lowerStr q.question_text) "gender" = true
            · rw [if_pos c6]
              exact (Or.inr (Or.inr (Or.inr (Or.inr (Or.inr (Or.inr (Or.inl rfl)))))))
            · rw [if_neg c6]
              by_cases c7 : containsSub (lowerStr q.question_text) "race" = true
              · rw [if_pos c7]
                exact (Or.inr (Or.inr (Or.inr (Or.inr (Or.inr (Or.inr (Or.inr (Or.inl rfl))))))))
              · rw [if_neg c7]
                by_cases c8 : containsSub (lowerStr q.question_text) "ethnicity" = true
                · rw [if_pos c8]
                  exact (Or.inr (Or.inr (Or.inr (Or.inr (Or.inr (Or.inr (Or.inr (Or.inr (Or.inl rfl)))))))))
                · rw [if_neg c8]
                  by_cases c9 : containsSub (lowerStr q.question_text) "marital" = true
                  · rw [if_pos c9]
                    exact (Or.inr (Or.inr (Or.inr (Or.inr (Or.inr (Or.inr (Or.inr (Or.inr (Or.inr (Or.inl rfl))))))))))
                  · rw [if_neg c9]
                    by_cases c10 : (containsSub (lowerStr q.question_text) "address" && containsSub (lowerStr q.question_text) "line 1") = true
                    · rw [if_pos c10]
                      exact (Or.inr (Or.inr (Or.inr (Or.inr (Or.inr (Or.inr (Or.inr (Or.inr (Or.inr (Or.inr (Or.inl rfl)))))))))))
                    · rw [if_neg c10]
                      by_cases c11 : containsSub (lowerStr q.question_text) "city" = true
                      · rw [if_pos c11]
                        exact (Or.inr (Or.inr (Or.inr (Or.inr (Or.inr (Or.inr (Or.inr (Or.inr (Or.inr (Or.inr (Or.inr (Or.inl rfl))))))))))))
                      · rw [if_neg c11]
                        by_cases c12 : containsSub (lowerStr q.question_text) "state" = true
                        · rw [if_pos c12]
                          exact (Or.inr (Or.inr (Or.inr (Or.inr (Or.inr (Or.inr (Or.inr (Or.inr (Or.inr (Or.inr (Or.inr (Or.inr (Or.inl rfl)))))))))))))
                        · rw [if_neg c12]
                          by_cases c13 : (containsSub (lowerStr q.question_text) "zip" || containsSub (lowerStr q.question_text) "postal") = true
                          · rw [if_pos c13]
                            exact (Or.inr (Or.inr (Or.inr (Or.inr (Or.inr (Or.inr (Or.inr (Or.inr (Or.inr (Or.inr (Or.inr (Or.inr (Or.inr rfl)))))))))))))
                          · rw [if_neg c13]
                            exact Or.inl rfl

set_option maxHeartbeats 3200000 in
/-- C9: each extractor call changes at most one attribute across the two
accumulators (the first matching keyword wins), and when no keyword of
the priority list matches the prompt both accumulators are returned
unchanged. -/
theorem C9_extractor_frame (q : Question) (answer : String) (pi : PersonalInfo) (ai : AddressInfo) :
    diffCount pi (updateStandardFields q answer pi ai).1 ai (updateStandardFields q answer pi ai).2 ≤ 1 ∧
    (noStandardFieldKeyword q = true → updateStandardFields q answer pi ai = (pi, ai)) := by
  constructor
  · rcases updateStandardFields_shape q answer pi ai with
      h | h | h | h | h | h | h | h | h | h | h | h | h | h <;>
      rw [h] <;> simp [diffCount] <;> split_ifs <;> simp
  · intro h
    unfold noStandardFieldKeyword at h
    simp only [Bool.and_eq_true, Bool.not_eq_true'] at h
    obtain ⟨⟨⟨⟨⟨⟨⟨⟨⟨⟨⟨⟨h1, h2⟩, h3⟩, h4⟩, h5⟩, h6⟩, h7⟩, h8⟩, h9⟩, h10⟩, h11⟩, h12⟩, h13⟩ := h
    simp only [updateStandardFields, h1, h2, h3, h4, h5, h6, h7, h8, h9, h10, h11, h12, h13,
      Bool.false_eq_true, if_false]

/-- Witness for C9: a prompt matching no keyword leaves both accumulators
unchanged, and the change count of the call is at most one. -/
theorem C9_witness :
    diffCount {} (updateStandardFields qColor "blue" {} {}).1 {} (updateStandardFields qColor "blue" {} {}).2 ≤ 1 ∧
    updateStandardFields qColor "blue" {} {} = ({}, {}) :=
  ⟨(C9_extractor_frame qColor "blue" {} {}).1,
    (C9_extractor_frame qColor "blue" {} {}).2 (by decide)⟩
